import Mathlib

/-!
Verification of gptsh (src/main.rs), a command-line chat client for the
OpenAI chat-completion API.  The program either runs one shot (prompt on
the command line) or an interactive read-eval loop; responses tagged with
a leading marker are offered for shell execution after confirmation.

The shallow embedding below translates the source faithfully:
pure functions become Lean functions, the I/O of the loop becomes explicit
event parameters, Rust `Result`/`Option` become `Except`/`Option`, and a
Rust panic (`unwrap` of `None`) is modelled as the `none` outcome.
-/

/-- A chat message, the `{"role": ..., "content": ...}` JSON objects built
with `json!` in the source. -/
structure Msg where
  role : String
  content : String
deriving DecidableEq, Repr

/-- A minimal model of `serde_json::Value`, covering what the source
inspects: objects with string keys, arrays, strings and the remaining
leaf kinds. -/
inductive Json where
  | null : Json
  | bool (b : Bool) : Json
  | num (n : Int) : Json
  | str (s : String) : Json
  | arr (xs : List Json) : Json
  | obj (fields : List (String × Json)) : Json

/-- Rust `str::trim`: the string with leading and trailing whitespace
removed (modelled over the character list; the whitespace the program
meets is ASCII). -/
def str_trim (s : String) : String :=
  String.mk (((s.data.dropWhile Char.isWhitespace).reverse.dropWhile
    Char.isWhitespace).reverse)

/-- Rust `str::starts_with` for a string pattern. -/
def str_starts_with (s pat : String) : Bool :=
  List.isPrefixOf pat.data s.data

/-- Rust `str::strip_prefix`: `Some` of the remainder when `pat` is a
prefix of `s`, `None` otherwise. -/
def str_strip (s pat : String) : Option String :=
  if List.isPrefixOf pat.data s.data then
    some (String.mk (s.data.drop pat.data.length))
  else
    none

/-- `Value::get(key)` from serde_json: on an object, look up the key;
on anything else, `None`. -/
def Json.getField : Json → String → Option Json
  | Json.obj fields, key => (fields.find? (fun f => f.1 == key)).map (fun f => f.2)
  | _, _ => none

/-- `Value::get(index)` from serde_json: on an array, index into it;
on anything else, `None`. -/
def Json.getIdx : Json → Nat → Option Json
  | Json.arr xs, i => xs[i]?
  | _, _ => none

/-- `Value::as_str` from serde_json. -/
def Json.asStr : Json → Option String
  | Json.str s => some s
  | _ => none

/-- `shell()` (src/main.rs:148-154): map the OS identifier to the name of
the default command interpreter.  The Rust `match` on `&str` literals is
an equality cascade. -/
def shell (os : String) : String :=
  if os = "windows" then "powershell"
  else if os = "macos" then "zsh"
  else "bash"

/-- `system_message()` (src/main.rs:157-182): the fixed instruction string,
parametrized only by the resolved shell and the OS name (the `{shell}` and
`{os}` placeholders of the Rust format string become concatenation). -/
def system_message (os : String) : String :=
  let sh := shell os
  "You are both an AI assistant and a natural language to " ++ sh ++
  " command translation engine on " ++ os ++ ".\n" ++
  "If the prompt is asking a general question, you should respond with a helpful and accurate answer as you would normally.\n" ++
  "If you don\x27t understand the prompt, simply explain why.\n\n" ++
  "If the prompt is something that can be accomplished with a shell command, such as creating directories/files, changing directories, downloading files, sending requests, changing OS settings, running programs, editing files, etc., then you should output a single " ++
  sh ++ " command that can accomplish the task, preceeded by \"[shell]\" to mark it as a shell command.\n\n" ++
  "Here are the rules for generating " ++ sh ++ " commands:\n" ++
  "Always use only one line; you can always chain multiple commands on a single line.\n" ++
  "Never use multiple commands on separate lines. Always use semicolons or \"&&\" to chain multiple commands on a single line.\n" ++
  "Never use comments.\n" ++
  "Never put introductory statements such as \"Here\x27s a command to do ...\" or \"To do this, run ...\", etc. Just put the command itself and nothing else (except for the \"[shell]\" tag).\n" ++
  "Never use placeholder file paths like \"C:\\Path\\To\\Directory\\\" or \"/path/to/file\". Instead, assume that paths are relative to the current working directory.\n" ++
  "Always use valid " ++ sh ++ " code.\n" ++
  "Always make sure the command will work properly on " ++ os ++ ".\n" ++
  "Always use file paths that are relative to the current working directory unless otherwise specified.\n" ++
  "Always assume that the command will be executed as-is and without modification (except that the \"[shell]\" tag at the beginning will be removed before executing).\n" ++
  "Never add unnecessary text or details to the answer.\n" ++
  "Always use plain text; no html, markdown, or other styled or colored text.\n" ++
  "Never paraphrase the question/prompt or restate the prompt in the answer; output only the shell command itself (and the preceeding \"[shell]\" tag).\n" ++
  "Always make the command as concise and optimized as possible.\n\n" ++
  "It is extremely important that you never break these rules under any circumstances, with absolutely no exceptions whatsoever."

/-- The error message attached by `.context(...)` at src/main.rs:33. -/
def credential_error : String :=
  "an API key was not found in the OPENAI_API_KEY environment variable and was not supplied as an argument"

/-- Credential resolution (src/main.rs:33):
`args.key.unwrap_or(std::env::var("OPENAI_API_KEY").context(...)?)`.
Rust `Option::unwrap_or` evaluates its argument eagerly, so the
environment lookup and the `?` run first: an absent environment variable
aborts startup even when an explicit key was supplied.  `key` is the
optional `--key` argument, `env_var` the value of `OPENAI_API_KEY` if set. -/
def resolve_api_key (key : Option String) (env_var : Option String) : Except String String :=
  match env_var with
  | none => Except.error credential_error
  | some v => Except.ok (key.getD v)

/-- The `and_then` chain of `get_output` (src/main.rs:57-66):
`resp_json.get("choices")` then `.get(0)` then `.get("message")` then
`.get("content")` then `.as_str()`. -/
def extract_content (resp_json : Json) : Option String :=
  (resp_json.getField "choices").bind fun v =>
    (v.getIdx 0).bind fun v =>
      (v.getField "message").bind fun v =>
        (v.getField "content").bind fun v => v.asStr

/-- The `.ok_or(resp_json)` step of `get_output` (src/main.rs:68): return
the extracted text, or the entire parsed response body as the error. -/
def parse_response (resp_json : Json) : Except Json String :=
  match extract_content resp_json with
  | some s => Except.ok s
  | none => Except.error resp_json

/-- The `get_output` closure (src/main.rs:47-71).  The transport layer
(`send()?` and `resp.json()?`, i.e. network failure or a non-JSON body) is
modelled by the `transport` parameter: `Except.error ()` when either `?`
fires, `Except.ok body` when a JSON body was parsed.  The outer `Except`
of the result is the outer Rust `Result` (propagated with `?` by the
callers), the inner one is `Result<String, serde_json::Value>`. -/
def get_output (transport : Except Unit Json) : Except Unit (Except Json String) :=
  match transport with
  | Except.error e => Except.error e
  | Except.ok resp_json => Except.ok (parse_response resp_json)

/-- An observable step taken by the program: one API round trip (with the
request message list), a line printed in green, the error report of a
provider error, or the execution of a confirmed shell command. -/
inductive Event where
  | apiCall (request : List Msg) : Event
  | printGreen (s : String) : Event
  | printError (payload : Json) : Event
  | execute (sh : String) (cmd : String) : Event

/-- The `handle_output` closure (src/main.rs:74-94) as a function of the
OS, the assistant's text and the operator's answer to the confirmation
prompt.  Returns the list of observable events, or `none` when the
closure panics: the source tests `output.trim().starts_with("[shell]")`
but then calls `output.strip_prefix("[shell]").unwrap()` on the untrimmed
text, so leading whitespace before the marker makes the `unwrap` panic
before anything is printed. -/
def handle_output (os : String) (output : String) (confirm : Bool) : Option (List Event) :=
  if str_starts_with (str_trim output) "[shell]" then
    match str_strip output "[shell]" with
    | none => none
    | some rest =>
      let command := str_trim rest
      some (Event.printGreen command ::
        (if confirm then [Event.execute (shell os) command] else []))
  else
    some [Event.printGreen output]

/-- One-shot mode (src/main.rs:98-112): join the prompt words with single
spaces, send a two-message conversation once, and route the result.  The
returned list is the complete trace of observable events of the run; a
transport error makes the `?` at src/main.rs:104 end `main` right after
the single call, and a panic in `handle_output` produces no events. -/
def one_shot (os : String) (prompt_words : List String) (transport : Except Unit Json)
    (confirm : Bool) : List Event :=
  let prompt := String.intercalate " " prompt_words
  let request := [Msg.mk "system" (system_message os), Msg.mk "user" prompt]
  Event.apiCall request ::
    (match get_output transport with
     | Except.error _ => []
     | Except.ok (Except.ok output) => (handle_output os output confirm).getD []
     | Except.ok (Except.error j) => [Event.printError j])

/-- The outside world's contribution to one iteration of the REPL
(src/main.rs:121-140): either the operator's input line fails to read
(the `?` at src/main.rs:124), or a prompt is read, the API call has the
given transport outcome, and the operator would answer the confirmation
prompt with `confirm`. -/
inductive TurnInput where
  | inputError : TurnInput
  | prompt (p : String) (transport : Except Unit Json) (confirm : Bool) : TurnInput

/-- One iteration of the interactive loop (src/main.rs:121-140) acting on
the committed conversation `messages`.  `none` means the iteration does
not come back to the top of the loop (an error propagates out of `main`
via `?`, or `handle_output` panics); `some ms` means the loop continues
with committed conversation `ms`.  The body clones `messages`, pushes the
user prompt, calls `get_output` (whose transport error propagates via
`?`), and on a provider error reports it leaving `messages` untouched;
on success it runs `handle_output`, pushes the assistant reply and
commits. -/
def loop_step (os : String) (messages : List Msg) (t : TurnInput) : Option (List Msg) :=
  match t with
  | TurnInput.inputError => none
  | TurnInput.prompt p transport confirm =>
    let new_messages := messages ++ [Msg.mk "user" p]
    match get_output transport with
    | Except.error _ => none
    | Except.ok (Except.error _) => some messages
    | Except.ok (Except.ok output) =>
      match handle_output os output confirm with
      | none => none
      | some _ => some (new_messages ++ [Msg.mk "assistant" output])

/-- The interactive loop run over a list of turn inputs, threading the
committed conversation; `none` as soon as one iteration ends the
process. -/
def run_loop (os : String) (messages : List Msg) : List TurnInput → Option (List Msg)
  | [] => some messages
  | t :: ts =>
    match loop_step os messages t with
    | none => none
    | some ms => run_loop os ms ts

/-- The initial committed conversation of the REPL (src/main.rs:119):
only the system message. -/
def initial_messages (os : String) : List Msg :=
  [Msg.mk "system" (system_message os)]

/-- Whether an event is a command execution. -/
def is_execute : Event → Bool
  | Event.execute _ _ => true
  | _ => false

/-- Whether an event is an API round trip. -/
def is_api_call : Event → Bool
  | Event.apiCall _ => true
  | _ => false

/-- One successful interactive turn: the operator's prompt, the JSON body
the provider answers with, the assistant text it carries, and the
operator's answer to a confirmation prompt if one appears. -/
structure Turn where
  prompt : String
  body : Json
  output : String
  confirm : Bool

/-- The REPL inputs corresponding to a list of turns whose API calls all
come back with a parsed JSON body. -/
def turn_inputs (ts : List Turn) : List TurnInput :=
  ts.map fun t => TurnInput.prompt t.prompt (Except.ok t.body) t.confirm

/-- The user/assistant message pairs a list of successful turns appends
to the committed conversation, in call order. -/
def turn_messages : List Turn → List Msg
  | [] => []
  | t :: ts => Msg.mk "user" t.prompt :: Msg.mk "assistant" t.output :: turn_messages ts

/-- A well-formed success response body: a `choices` array whose first
element holds a `message` object with a string `content`. -/
def success_body (s : String) : Json :=
  Json.obj [("choices",
    Json.arr [Json.obj [("message", Json.obj [("content", Json.str s)])]])]

-- Sanity examples (evaluation of the embedding on concrete inputs).
example : shell "linux" = "bash" := rfl
example : extract_content (success_body "hello") = some "hello" := rfl
example : handle_output "linux" "[shell] ls -la  " true
    = some [Event.printGreen "ls -la", Event.execute "bash" "ls -la"] := rfl

/-- C1: the spec claims that any response whose trimmed text begins with
the `[shell]` marker has its command extracted as everything after the
marker, trimmed; the example input with leading whitespace is supposed to
yield `ls -la`.  The code checks the marker on the trimmed text but
strips it from the untrimmed text with `.unwrap()` (src/main.rs:76-78),
so the spec's own example makes the program panic (modelled as `none`)
instead of extracting the command.  Without leading whitespace, and for
unmarked text, the code behaves as claimed. -/
theorem shell_tag_extraction_bug :
  handle_output "linux" "  [shell] ls -la  " true = none
  ∧ handle_output "linux" "[shell] ls -la  " false = some [Event.printGreen "ls -la"]
  ∧ handle_output "linux" "The capital of France is Paris." false
      = some [Event.printGreen "The capital of France is Paris."] :=
  ⟨rfl, rfl, rfl⟩

/-- C2 counterexample: a transport failure during the API call of an
interactive turn *does* terminate the read-eval loop — the `?` at
src/main.rs:127 propagates the error out of `main` — contradicting the
claim that the loop is continued.  `none` is the model's outcome for an
iteration that does not return to the top of the loop. -/
theorem transport_error_ends_loop_cex :
  loop_step "linux" (initial_messages "linux")
      (TurnInput.prompt "hi" (Except.error ()) false) = none :=
  rfl

/-- C2 (amended): in interactive mode a transport failure during the API
call (network error, non-JSON response body) propagates out of the
read-eval loop and terminates the process; the loop is not continued. -/
theorem transport_error_terminates (os : String) (ms : List Msg) (p : String) (c : Bool) :
  loop_step os ms (TurnInput.prompt p (Except.error ()) c) = none :=
  rfl

/-- C3: the spec claims startup fails on a missing credential exactly
when both the `--key` argument and the environment variable are absent.
But `unwrap_or` evaluates its argument eagerly (src/main.rs:33), so the
environment lookup and its `?` run even when an explicit key is given:
with `--key sk-123` and no `OPENAI_API_KEY`, startup aborts with the very
message saying no key was supplied as an argument.  The other
combinations behave as claimed. -/
theorem explicit_key_without_env_aborts :
  resolve_api_key (some "sk-123") none = Except.error credential_error
  ∧ resolve_api_key none (some "sk-env") = Except.ok "sk-env"
  ∧ resolve_api_key (some "sk-123") (some "sk-env") = Except.ok "sk-123"
  ∧ resolve_api_key none none = Except.error credential_error :=
  ⟨rfl, rfl, rfl, rfl⟩

/-- C4: a provider error (parsed JSON lacking the expected
`choices[0].message.content` string) leaves the committed conversation
exactly as it was before the turn: the loop continues with `ms`, so
neither the failed user message nor an assistant message is persisted
(src/main.rs:137-138). -/
theorem provider_error_preserves_history (os : String) (ms : List Msg) (p : String)
    (body : Json) (c : Bool) (h : extract_content body = none) :
  loop_step os ms (TurnInput.prompt p (Except.ok body) c) = some ms := by
  simp [loop_step, get_output, parse_response, h]

/-- Witness for C4: a concrete provider-error body (an object with no
`choices`) on a concrete conversation. -/
theorem provider_error_preserves_history_w :
  extract_content (Json.obj [("error", Json.str "bad request")]) = none
  ∧ loop_step "linux" (initial_messages "linux")
      (TurnInput.prompt "hi" (Except.ok (Json.obj [("error", Json.str "bad request")])) false)
      = some (initial_messages "linux") :=
  ⟨rfl, provider_error_preserves_history "linux" (initial_messages "linux") "hi"
    (Json.obj [("error", Json.str "bad request")]) false rfl⟩

/-- Helper for C5: running the loop over successful turns from any
committed conversation appends exactly the user/assistant pairs. -/
theorem run_loop_turns (os : String) (ts : List Turn) (ms : List Msg)
    (hp : ∀ t ∈ ts, extract_content t.body = some t.output)
    (hh : ∀ t ∈ ts, (handle_output os t.output t.confirm).isSome = true) :
  run_loop os ms (turn_inputs ts) = some (ms ++ turn_messages ts) := by
  induction ts generalizing ms with
  | nil => simp [turn_inputs, run_loop, turn_messages]
  | cons t ts ih =>
    have hp1 : extract_content t.body = some t.output := hp t (List.mem_cons_self t ts)
    have hh1 : (handle_output os t.output t.confirm).isSome = true :=
      hh t (List.mem_cons_self t ts)
    obtain ⟨es, hes⟩ := Option.isSome_iff_exists.mp hh1
    simp only [turn_inputs, List.map_cons, run_loop, loop_step, get_output,
      parse_response, hp1, hes]
    have ih2 := ih (ms ++ [Msg.mk "user" t.prompt] ++ [Msg.mk "assistant" t.output])
      (fun u hu => hp u (List.mem_cons_of_mem t hu))
      (fun u hu => hh u (List.mem_cons_of_mem t hu))
    simp only [turn_inputs] at ih2
    rw [ih2]
    simp [turn_messages]

/-- Helper for C5: each turn contributes two messages. -/
theorem turn_messages_length (ts : List Turn) :
  (turn_messages ts).length = 2 * ts.length := by
  induction ts with
  | nil => simp [turn_messages]
  | cons t ts ih => simp [turn_messages, ih]; omega

/-- C5: starting from the initial conversation (the system message
alone), any N consecutive successful interactive turns commit exactly the
system message followed by the user/assistant pairs in call order —
2N+1 messages in total. -/
theorem interactive_history_shape (os : String) (ts : List Turn)
    (hp : ∀ t ∈ ts, extract_content t.body = some t.output)
    (hh : ∀ t ∈ ts, (handle_output os t.output t.confirm).isSome = true) :
  run_loop os (initial_messages os) (turn_inputs ts)
      = some (initial_messages os ++ turn_messages ts)
  ∧ (initial_messages os ++ turn_messages ts).length = 2 * ts.length + 1 := by
  refine ⟨run_loop_turns os ts (initial_messages os) hp hh, ?_⟩
  simp [initial_messages, turn_messages_length]

/-- Two concrete successful turns used by the C5 witness. -/
def demo_turns : List Turn :=
  [⟨"hi", success_body "Hello!", "Hello!", false⟩,
   ⟨"capital of France?", success_body "Paris.", "Paris.", false⟩]

/-- Witness for C5: both hypotheses hold for `demo_turns` and the loop
commits the five expected messages. -/
theorem interactive_history_shape_w :
  ((∀ t ∈ demo_turns, extract_content t.body = some t.output)
   ∧ (∀ t ∈ demo_turns, (handle_output "linux" t.output t.confirm).isSome = true))
  ∧ (run_loop "linux" (initial_messages "linux") (turn_inputs demo_turns)
      = some (initial_messages "linux" ++ turn_messages demo_turns)
     ∧ (initial_messages "linux" ++ turn_messages demo_turns).length
        = 2 * demo_turns.length + 1) :=
  ⟨⟨by decide, by decide⟩,
   interactive_history_shape "linux" demo_turns (by decide) (by decide)⟩

/-- C6: when the operator declines the confirmation prompt, the trace of
the output handler contains no command execution, whatever the response
text is (src/main.rs:84-87: `Command::new(...)` runs only under
`if confirm`). -/
theorem decline_never_executes (os output : String) :
  ((handle_output os output false).getD []).any is_execute = false := by
  rw [handle_output]
  split
  · split <;> rfl
  · rfl

/-- C7: the shell resolver is total on OS identifiers: `windows` maps to
`powershell`, `macos` to `zsh`, and everything else to `bash`
(src/main.rs:148-154). -/
theorem shell_resolution (os : String) (h1 : os ≠ "windows") (h2 : os ≠ "macos") :
  shell "windows" = "powershell" ∧ shell "macos" = "zsh" ∧ shell os = "bash" := by
  refine ⟨rfl, rfl, ?_⟩
  simp [shell, h1, h2]

/-- Witness for C7 at the identifier `linux`. -/
theorem shell_resolution_w :
  ("linux" ≠ "windows" ∧ "linux" ≠ "macos")
  ∧ (shell "windows" = "powershell" ∧ shell "macos" = "zsh" ∧ shell "linux" = "bash") :=
  ⟨by decide, shell_resolution "linux" (by decide) (by decide)⟩

/-- Helper for C8: the output handler never performs an API call. -/
theorem handle_output_no_api_call (os output : String) (c : Bool) :
  ((handle_output os output c).getD []).countP is_api_call = 0 := by
  rw [handle_output]
  split
  · split
    · rfl
    · cases c <;> rfl
  · rfl

/-- C8: one-shot mode sends exactly one API request over the whole run,
and that request is the two-message conversation: the system message
followed by one user message whose content is the prompt words joined
with single spaces (src/main.rs:98-104). -/
theorem one_shot_request_shape (os : String) (words : List String)
    (transport : Except Unit Json) (c : Bool) :
  (one_shot os words transport c).countP is_api_call = 1
  ∧ (one_shot os words transport c).head?
      = some (Event.apiCall [Msg.mk "system" (system_message os),
          Msg.mk "user" (String.intercalate " " words)])
  ∧ String.intercalate " " ["list", "files"] = "list files" := by
  refine ⟨?_, rfl, rfl⟩
  cases transport with
  | error e => rfl
  | ok body =>
    cases h : parse_response body with
    | error j =>
      simp [one_shot, get_output, h, List.countP_cons, is_api_call]
    | ok output =>
      simp [one_shot, get_output, h, List.countP_cons, is_api_call,
        handle_output_no_api_call]

/-- C9: the API client's parsing of a response body: when the body holds
a `choices` list whose first element has a `message` object with a string
`content`, that string is returned as the success value; in every other
case the entire raw body is returned as the error value
(src/main.rs:56-68). -/
theorem response_parsing (j : Json) :
  (∀ (c m : Json) (cs : List Json) (s : String),
      j.getField "choices" = some (Json.arr (c :: cs)) →
      c.getField "message" = some m →
      m.getField "content" = some (Json.str s) →
      parse_response j = Except.ok s)
  ∧ (extract_content j = none → parse_response j = Except.error j) := by
  constructor
  · intro c m cs s h1 h2 h3
    simp [parse_response, extract_content, h1, h2, h3, Json.getIdx, Json.asStr]
  · intro h
    simp [parse_response, h]

/-- Witness for C9: a concrete success body yields its content, and a
concrete error payload is returned whole. -/
theorem response_parsing_w :
  parse_response (success_body "hello") = Except.ok "hello"
  ∧ parse_response (Json.obj [("error", Json.str "bad")])
      = Except.error (Json.obj [("error", Json.str "bad")]) :=
  ⟨(response_parsing (success_body "hello")).1
      (Json.obj [("message", Json.obj [("content", Json.str "hello")])])
      (Json.obj [("content", Json.str "hello")]) [] "hello" rfl rfl rfl,
   (response_parsing (Json.obj [("error", Json.str "bad")])).2 rfl⟩

/-- C10: a failure while reading the operator's input line (the `?` at
src/main.rs:124) propagates out of the loop and terminates the process;
the iteration does not report-and-continue. -/
theorem input_error_terminates (os : String) (ms : List Msg) :
  loop_step os ms TurnInput.inputError = none :=
  rfl
